import Mathlib

/-!
Verification of the crawlability-checker application (`crawl_checker_app.py`).

The development shallowly embeds the per-site analysis pipeline `check_site`,
the known-API lookup `get_known_api`, the regex extractions used for
`Sitemap:` / `Allow:` / `Disallow:` / `<loc>` scanning, and the parts of
Python's `urllib.robotparser.RobotFileParser` that the pipeline calls
(`parse`, `can_fetch`, `crawl_delay`).  All strings are treated as sequences
of characters; the embedding is scoped to ASCII text, which covers every
robots body and URL the claims quantify over.  Network effects are passed in
explicitly as `FetchOutcome` values; Python's percent-quoting helpers
(`urllib.parse.unquote` / `quote`) and the URL-path normalisation performed
inside `can_fetch` are passed in as explicit function parameters so that
theorems quantify over them.
-/

/-! ## Character and string helpers (ASCII scope) -/

/-- Whitespace as matched by `\s` in a Python regex, restricted to ASCII:
space, tab, newline, carriage return, vertical tab, form feed. -/
def isWsChar (c : Char) : Bool :=
  c = ' ' || c = '\t' || c = '\n' || c = '\x0d' || c = '\x0b' || c = '\x0c'

/-- Whitespace as stripped by Python `str.strip()`, restricted to ASCII
(`str.isspace` characters): space, `\t`-`\r`, `\x1c`-`\x1f`. -/
def pyIsSpace (c : Char) : Bool :=
  c = ' ' || (9 ≤ c.toNat && c.toNat ≤ 13) || (28 ≤ c.toNat && c.toNat ≤ 31)

/-- Python `str.lower()` on ASCII text. -/
def pyLower (s : String) : String := String.mk (s.data.map Char.toLower)

/-- Python `str.strip()` on ASCII text. -/
def pyStrip (s : String) : String :=
  String.mk (((s.data.dropWhile pyIsSpace).reverse.dropWhile pyIsSpace).reverse)

/-- Line-break characters recognised by Python `str.splitlines()`, ASCII part:
`\n`, `\r`, `\v`, `\f`, `\x1c`, `\x1d`, `\x1e` (plus the `\r\n` pair, handled
separately). -/
def isLineBreak (c : Char) : Bool :=
  c = '\n' || c = '\x0d' || c = '\x0b' || c = '\x0c' ||
  c = '\x1c' || c = '\x1d' || c = '\x1e'

/-- Worker for `pySplitlines`; `acc` holds the current line reversed. -/
def splitlinesGo : List Char → List Char → List String
  | acc, [] => if acc.isEmpty then [] else [String.mk acc.reverse]
  | acc, '\x0d' :: '\n' :: rest => String.mk acc.reverse :: splitlinesGo [] rest
  | acc, c :: rest =>
    if isLineBreak c then String.mk acc.reverse :: splitlinesGo [] rest
    else splitlinesGo (c :: acc) rest

/-- Python `str.splitlines()`: the app calls `content.splitlines()` before
handing the lines to the robots parser (line 70 of the source). -/
def pySplitlines (s : String) : List String := splitlinesGo [] s.data

/-- Python substring test `needle in hay` (contiguous substring). -/
def hasSubS (hay needle : String) : Bool :=
  hay.data.tails.any (fun t => needle.data.isPrefixOf t)

/-- Python `str.isdigit()` for ASCII strings: nonempty and all digits. -/
def isDigits (s : String) : Bool := !s.data.isEmpty && s.data.all Char.isDigit

/-- Value of `int(s)` for a string of ASCII digits. -/
def natFromDigits (s : String) : Nat :=
  s.data.foldl (fun n c => n * 10 + (c.toNat - 48)) 0

/-- Split a string at its first `:`; `None` when there is no colon.  This is
Python's `line.split(':', 1)` restricted to the two-part case. -/
def splitColon (s : String) : Option (String × String) :=
  match s.data.dropWhile (· ≠ ':') with
  | ':' :: rest => some (String.mk (s.data.takeWhile (· ≠ ':')), String.mk rest)
  | _ => none

/-! ## The directive regex scanner

`check_site` extracts directives with three `re.findall` calls over the raw
robots body (source lines 74-78):

* `re.findall(r'(?i)^Sitemap:\s*(.+)', content, re.MULTILINE)`
* `re.findall(r'^Allow:\s*(.*)', content, re.MULTILINE)`
* `re.findall(r'^Disallow:\s*(.*)', content, re.MULTILINE)`

The scanner below follows the regex engine's semantics for these patterns:
`^` matches at the start of the text and after each `'\n'` (`re.MULTILINE`);
`\s*` is greedy and may consume newlines; `.` never matches `'\n'` and `.+` /
`.*` are greedy, with the engine backtracking `\s*` when `.+` would otherwise
have nothing to match; matches are non-overlapping and scanning resumes at
the end of each match. -/

/-- One-character comparison for the literal directive name; `ci` selects the
case-insensitive mode of the `(?i)` flag. -/
def charMatch (ci : Bool) (c p : Char) : Bool :=
  if ci then c.toLower == p.toLower else c == p

/-- Match a literal (the directive name) at the head of the text, returning
the remaining text on success. -/
def litMatch (ci : Bool) : List Char → List Char → Option (List Char)
  | [], cs => some cs
  | _ :: _, [] => none
  | p :: ps, c :: cs => if charMatch ci c p then litMatch ci ps cs else none

/-- Negation of being the newline character, as a named predicate. -/
def notNl (c : Char) : Bool := c != '\n'

/-- After the literal has matched, match `\s*(.+)` (when `plus` is true) or
`\s*(.*)` (when `plus` is false) against the rest of the whole text,
returning the capture and the text after the match.  The greedy `\s*` run
stops at the first non-whitespace character, where `.+`/`.*` then captures up
to the next newline.  When the run reaches the end of the text, `.+` forces
the engine to backtrack to the last non-newline whitespace character (a
single-character capture), while `.*` captures the empty string. -/
def dirAttempt (plus : Bool) (cs : List Char) : Option (List Char × List Char) :=
  match cs.dropWhile isWsChar with
  | c :: rest =>
    some ((c :: rest).takeWhile notNl, (c :: rest).dropWhile notNl)
  | [] =>
    if plus then
      match cs.reverse.dropWhile (· = '\n') with
      | [] => none
      | c :: _ => some ([c], (cs.reverse.takeWhile (· = '\n')).reverse)
    else some ([], [])

/-- Drop the current (partial) line: everything up to and including the next
newline.  A failed match attempt at a line start resumes at the next line
start, and a successful match ends right before a newline (or at the end of
the text), so scanning always resumes via `dropLine`. -/
def dropLine (cs : List Char) : List Char := (cs.dropWhile notNl).drop 1

/-- The full multiline scan for `(?i)^LIT\s*(.+)` / `^LIT\s*(.*)`.  The
literal is passed as a guaranteed-nonempty `l₀ :: lit`.  `fuel` bounds the
recursion; every step consumes at least one character, so any fuel larger
than the text length is adequate. -/
def dirScan (l₀ : Char) (lit : List Char) (ci plus : Bool) :
    Nat → List Char → List (List Char)
  | 0, _ => []
  | fuel + 1, cs =>
    match litMatch ci (l₀ :: lit) cs with
    | some rest =>
      match dirAttempt plus rest with
      | some (cap, rest2) => cap :: dirScan l₀ lit ci plus fuel (dropLine rest2)
      | none => dirScan l₀ lit ci plus fuel (dropLine cs)
    | none => dirScan l₀ lit ci plus fuel (dropLine cs)

/-- `re.findall(r'(?i)^Sitemap:\s*(.+)', content, re.MULTILINE)` over raw
characters (source line 74). -/
def sitemapScanData (cs : List Char) : List (List Char) :=
  dirScan 's' "itemap:".data true true (cs.length + 1) cs

/-- String-level wrapper for the sitemap scan: `sitemap_matches`. -/
def findallSitemap (s : String) : List String :=
  (sitemapScanData s.data).map String.mk

/-- `re.findall(r'^Allow:\s*(.*)', content, re.MULTILINE)` over raw
characters (source line 77); note: no `(?i)` flag. -/
def allowScanData (cs : List Char) : List (List Char) :=
  dirScan 'A' "llow:".data false false (cs.length + 1) cs

/-- String-level wrapper for the allow scan: `allowed_paths`. -/
def findallAllow (s : String) : List String :=
  (allowScanData s.data).map String.mk

/-- `re.findall(r'^Disallow:\s*(.*)', content, re.MULTILINE)` over raw
characters (source line 78); note: no `(?i)` flag. -/
def disallowScanData (cs : List Char) : List (List Char) :=
  dirScan 'D' "isallow:".data false false (cs.length + 1) cs

/-- String-level wrapper for the disallow scan: `disallowed_paths`. -/
def findallDisallow (s : String) : List String :=
  (disallowScanData s.data).map String.mk

/-- The per-line reading of the directive scan, used to state the clean-body
correspondence: when the directive literal matches at the start of the line,
the value is the rest of the line with leading whitespace stripped, provided
that leaves at least one character. -/
def lineVal (l₀ : Char) (lit : List Char) (ci : Bool) (line : List Char) :
    Option (List Char) :=
  match litMatch ci (l₀ :: lit) line with
  | none => none
  | some rest =>
    match rest.dropWhile isWsChar with
    | [] => none
    | v => some v

/-- Join lines with single newlines (inverse of splitting a newline-separated
body into its lines). -/
def joinNl : List (List Char) → List Char
  | [] => []
  | [l] => l
  | l :: ls => l ++ '\n' :: joinNl ls

/-! ## The sitemap `<loc>` scanner

The previewer extracts page URLs with
`re.findall(r"<loc>(.*?)</loc>", sm_resp.text)` (source line 149): at each
position, match the literal `<loc>`, then lazily the shortest run of
non-newline characters followed by the literal `</loc>`; matches are
non-overlapping and the scan resumes after each match, otherwise it advances
one character. -/

/-- Index of the first position of `needle` inside `hay`, if any. -/
def findSub (needle : List Char) : List Char → Option Nat
  | [] => if needle.isPrefixOf ([] : List Char) then some 0 else none
  | c :: t =>
    if needle.isPrefixOf (c :: t) then some 0
    else (findSub needle t).map (· + 1)

/-- The `<loc>(.*?)</loc>` scan.  `fuel` bounds the recursion; each step
consumes at least one character. -/
def locScan : Nat → List Char → List (List Char)
  | 0, _ => []
  | fuel + 1, cs =>
    match litMatch false "<loc>".data cs with
    | some rest =>
      let t := rest.takeWhile (· ≠ '\n')
      match findSub "</loc>".data t with
      | some i => t.take i :: locScan fuel (rest.drop (i + 6))
      | none => locScan fuel (cs.drop 1)
    | none => locScan fuel (cs.drop 1)

/-- String-level wrapper: the `urls` list of the sitemap preview. -/
def locFindall (s : String) : List String :=
  (locScan (s.data.length + 1) s.data).map String.mk

/-! ## `urllib.robotparser.RobotFileParser`

`check_site` feeds the robots body to `RobotFileParser.parse` and queries
`can_fetch` and `crawl_delay` (source lines 68-72).  The model below follows
CPython's `urllib/robotparser.py`.  Two pieces of CPython behaviour are kept
abstract as function parameters rather than re-implemented:
`urllib.parse.unquote` (applied to every directive value) is `unquoteF`, and
the rule-path normalisation `quote(urlunparse(urlparse(path)))` performed in
`RuleLine.__init__` is `quoteF`.  Theorems quantify over both.  Likewise the
URL-path normalisation done at the top of `can_fetch`
(`quote(urlunparse(...unquote(url)...))`) happens at the call site, so
`canFetch` takes the already-normalised path. -/

/-- CPython `RuleLine`: a path pattern plus an allow/disallow polarity. -/
structure RuleLine where
  path : String
  allowance : Bool
deriving DecidableEq, Repr

/-- CPython `Entry`: one user-agent group. -/
structure REntry where
  useragents : List String := []
  rulelines : List RuleLine := []
  delay : Option Nat := none
deriving DecidableEq, Repr

/-- The parser state that `can_fetch` / `crawl_delay` consult: the non-`*`
groups in order, plus the first `*` group (CPython's `default_entry`). -/
structure RFP where
  entries : List REntry
  defaultEntry : Option REntry
deriving DecidableEq, Repr

/-- `RuleLine.__init__`: an empty disallow value means allow-all; the path is
then normalised (modelled by `quoteF`). -/
def mkRuleLine (quoteF : String → String) (path : String) (allowance : Bool) :
    RuleLine :=
  let allowance := if path = "" && !allowance then true else allowance
  { path := quoteF path, allowance := allowance }

/-- CPython `RobotFileParser._add_entry`: the first `*` group becomes the
default entry (later `*` groups are dropped); other groups are appended. -/
def addEntry (e : REntry) (rfp : RFP) : RFP :=
  if e.useragents.contains "*" then
    match rfp.defaultEntry with
    | none => { rfp with defaultEntry := some e }
    | some _ => rfp
  else { rfp with entries := rfp.entries ++ [e] }

/-- One step of the `RobotFileParser.parse` state machine.  The state is
`(state, entry, rfp)` with `state` 0 (start), 1 (saw user-agent), or
2 (saw a rule); blank lines close groups, `#` starts a comment, directive
names are lowercased, and values are `unquoteF`-decoded. -/
def parseLine (unquoteF quoteF : String → String)
    (st : Nat × REntry × RFP) (rawLine : String) : Nat × REntry × RFP :=
  let (state, entry, rfp) := st
  let (state, entry, rfp) :=
    if rawLine = "" then
      if state = 1 then (0, ({} : REntry), rfp)
      else if state = 2 then (0, ({} : REntry), addEntry entry rfp)
      else (state, entry, rfp)
    else (state, entry, rfp)
  let line := pyStrip (String.mk (rawLine.data.takeWhile (· ≠ '#')))
  if line = "" then (state, entry, rfp)
  else
    match splitColon line with
    | none => (state, entry, rfp)
    | some (k, v) =>
      let key := pyLower (pyStrip k)
      let val := unquoteF (pyStrip v)
      if key = "user-agent" then
        let (entry, rfp) :=
          if state = 2 then (({} : REntry), addEntry entry rfp) else (entry, rfp)
        (1, { entry with useragents := entry.useragents ++ [val] }, rfp)
      else if key = "disallow" then
        if state ≠ 0 then
          (2, { entry with
                rulelines := entry.rulelines ++ [mkRuleLine quoteF val false] },
           rfp)
        else (state, entry, rfp)
      else if key = "allow" then
        if state ≠ 0 then
          (2, { entry with
                rulelines := entry.rulelines ++ [mkRuleLine quoteF val true] },
           rfp)
        else (state, entry, rfp)
      else if key = "crawl-delay" then
        if state ≠ 0 then
          (2, { entry with
                delay := if isDigits (pyStrip val)
                         then some (natFromDigits (pyStrip val))
                         else entry.delay },
           rfp)
        else (state, entry, rfp)
      else if key = "request-rate" then
        if state ≠ 0 then (2, entry, rfp) else (state, entry, rfp)
      else (state, entry, rfp)

/-- `RobotFileParser.parse(lines)`: fold the state machine over the lines and
close the final group if it holds rules.  (The `sitemap:` branch of CPython's
parser only appends to `self.sitemaps`, which the app never reads, and does
not change the state; it is omitted.) -/
def rfpParse (unquoteF quoteF : String → String) (lines : List String) : RFP :=
  let (state, entry, rfp) :=
    lines.foldl (parseLine unquoteF quoteF) (0, ({} : REntry), ⟨[], none⟩)
  if state = 2 then addEntry entry rfp else rfp

/-- `Entry.applies_to(useragent)`: keep the useragent up to the first `/`,
lowercase it, and test each group agent: `*` matches everything, otherwise
the lowercased group agent must be a substring of the useragent. -/
def appliesTo (useragent : String) (e : REntry) : Bool :=
  let ua := pyLower (String.mk (useragent.data.takeWhile (· ≠ '/')))
  e.useragents.any (fun agent =>
    if agent = "*" then true else hasSubS ua (pyLower agent))

/-- `Entry.allowance(filename)`: the first rule line whose path is `*` or a
prefix of the filename decides; no match defaults to allowed. -/
def entryAllowance (filename : String) (e : REntry) : Bool :=
  match e.rulelines.find? (fun rl =>
      rl.path = "*" || rl.path.data.isPrefixOf filename.data) with
  | some rl => rl.allowance
  | none => true

/-- `RobotFileParser.can_fetch(useragent, url)` after a successful `parse`
(`parse` calls `modified()`, so `last_checked` is set, and `parse` never sets
`allow_all`/`disallow_all`).  `path` is the quoted path computed from the
request URL at the top of `can_fetch`. -/
def canFetch (rp : RFP) (useragent path : String) : Bool :=
  match rp.entries.find? (appliesTo useragent) with
  | some e => entryAllowance path e
  | none =>
    match rp.defaultEntry with
    | some d => entryAllowance path d
    | none => true

/-- `RobotFileParser.crawl_delay(useragent)` after a successful `parse`. -/
def crawlDelay (rp : RFP) (useragent : String) : Option Nat :=
  match rp.entries.find? (appliesTo useragent) with
  | some e => e.delay
  | none =>
    match rp.defaultEntry with
    | some d => d.delay
    | none => none

/-! ## Known-API table and URL domain extraction -/

/-- `get_known_api(domain)` (source lines 31-37): a fixed three-entry table. -/
def getKnownApi (domain : String) : Option String :=
  if domain = "paperswithcode.com" then some "https://paperswithcode.com/api/v1/"
  else if domain = "github.com" then some "https://api.github.com/"
  else if domain = "openlibrary.org" then some "https://openlibrary.org/developers/api"
  else none

/-- Characters allowed in a URL scheme (`urllib.parse.scheme_chars`). -/
def schemeChar (c : Char) : Bool := c.isAlphanum || c = '+' || c = '-' || c = '.'

/-- `urlparse(url).netloc` for the app's use (source lines 42-43): strip
C0-control/space prefix, drop tab/CR/LF, split off a well-formed scheme, and
when the remainder starts with `//` take everything up to the next
`/`, `?` or `#`. -/
def pyNetloc (url : String) : String :=
  let cs := (url.data.dropWhile (fun c => c.toNat ≤ 32)).filter
      (fun c => !(c = '\t' || c = '\x0d' || c = '\n'))
  let rest :=
    match cs.findIdx? (· = ':') with
    | some i =>
      if 0 < i && (cs.take i).all schemeChar &&
          (match cs.head? with | some c => c.isAlpha | none => false) then
        cs.drop (i + 1)
      else cs
    | none => cs
  match rest with
  | '/' :: '/' :: r =>
    String.mk (r.takeWhile (fun c => !(c = '/' || c = '?' || c = '#')))
  | _ => ""

/-! ## The classifier pieces of `check_site` -/

/-- Truthiness of an optional string in Python (`None` and `""` are falsy). -/
def truthyO : Option String → Bool
  | none => false
  | some s => !s.isEmpty

/-- The JS-heaviness heuristic exactly as coded (source line 81):
`any(k in content.lower() for k in [...])`.  Note the second keyword is
spelled in upper case in the source while the haystack is lowercased. -/
def jsHeavyOf (content : String) : Bool :=
  ["webpack", "window.__INITIAL_STATE__", "react", "vue", "next.js"].any
    (fun k => hasSubS (pyLower content) k)

/-- The JS-heaviness heuristic as the specification states it: the body,
compared case-insensitively, contains one of the five keywords (the spec
spells the state keyword in lower case, making the comparison meaningful).
This definition follows the spec's words, for comparison with `jsHeavyOf`. -/
def specJsHeavy (content : String) : Bool :=
  ["webpack", "window.__initial_state__", "react", "vue", "next.js"].any
    (fun k => hasSubS (pyLower content) k)

/-- The RSS heuristic (source line 80). -/
def rssOf (content : String) : Bool :=
  hasSubS (pyLower content) "rss" || hasSubS (pyLower content) "feed"

/-- The `methods` list (source lines 85-93). -/
def methodsOf (crawlAllowed smT apiT rss : Bool) : List String :=
  (if crawlAllowed then ["Normal Crawling"] else []) ++
  (if smT then ["Sitemap"] else []) ++
  (if apiT then ["API"] else []) ++
  (if rss then ["RSS"] else [])

/-- The `best_method` decision (source lines 95-100). -/
def bestMethodOf (crawlAllowed smT : Bool) : String :=
  if smT then "📦 Sitemap (Recommended)"
  else if crawlAllowed then "✅ Normal Crawling"
  else "❌ No Access"

/-- The tool suggestion (source lines 102-110). -/
def suggestionOf (crawlAllowed jsHeavy : Bool) : String :=
  if crawlAllowed && !jsHeavy then
    "🟢 Use requests + BeautifulSoup (lightweight & fast)"
  else if jsHeavy && crawlAllowed then
    "🟡 Use Playwright, Puppeteer, or Selenium (JS-rendered content)"
  else if !crawlAllowed then
    "🔴 Crawling blocked. Consider Playwright or Splash (headless browser), or look for public APIs"
  else "⚠️ Fallback: Try headless tools (e.g., Splash, Playwright)"

/-- The crawlability score (source lines 114-124). -/
def scoreOf (crawlAllowed smT rss apiT jsHeavy : Bool) : Nat :=
  (if crawlAllowed then 30 else 0) + (if smT then 30 else 0) +
  (if rss then 15 else 0) + (if apiT then 15 else 0) +
  (if jsHeavy then 0 else 10)

/-- The `project_type` chain (source lines 126-141); substring tests are on
the raw `url` parameter and are case-sensitive. -/
def categoryOf (url : String) (apiUrl smInfo : Option String) : String :=
  if hasSubS url "recipes" || hasSubS url "food" then "🍲 Recipe Extraction"
  else if hasSubS url "news" || hasSubS url "times" || hasSubS url "aljazeera" then
    "📰 News Aggregator"
  else if hasSubS url "jobs" || hasSubS url "career" || hasSubS url "remote" then
    "💼 Job Crawler"
  else if hasSubS url "books" || hasSubS url "openlibrary" then
    "📚 Book Recommender"
  else if hasSubS url "travel" || hasSubS url "trip" || hasSubS url "expedia" then
    "🌍 Travel Deals Monitor"
  else if truthyO apiUrl then "📡 API-based Dashboard"
  else if truthyO smInfo then "🔍 Sitemap-based Indexer"
  else "🧪 Experimental / Headless Only"

/-- The category rules in the spec's stated priority order, as
condition/result pairs.  This definition follows the spec's words, for the
first-match-wins reading of the `suggestedUseCategory` rules. -/
def categoryRules (url : String) (apiUrl smInfo : Option String) :
    List (Bool × String) :=
  [ (hasSubS url "recipes" || hasSubS url "food", "🍲 Recipe Extraction"),
    (hasSubS url "news" || hasSubS url "times" || hasSubS url "aljazeera",
      "📰 News Aggregator"),
    (hasSubS url "jobs" || hasSubS url "career" || hasSubS url "remote",
      "💼 Job Crawler"),
    (hasSubS url "books" || hasSubS url "openlibrary", "📚 Book Recommender"),
    (hasSubS url "travel" || hasSubS url "trip" || hasSubS url "expedia",
      "🌍 Travel Deals Monitor"),
    (truthyO apiUrl, "📡 API-based Dashboard"),
    (truthyO smInfo, "🔍 Sitemap-based Indexer") ]

/-- First-match-wins evaluation of a rule list with a default. -/
def firstMatch : List (Bool × String) → String → String
  | [], d => d
  | (b, r) :: rest, d => if b then r else firstMatch rest d

/-- The spec-side reading of `suggestedUseCategory`: first matching rule in
the fixed priority order, else the experimental fallback. -/
def specSuggestedUse (url : String) (apiUrl smInfo : Option String) : String :=
  firstMatch (categoryRules url apiUrl smInfo) "🧪 Experimental / Headless Only"

/-- The `Crawl Delay` display field (source line 161):
`f"{crawl_delay} sec" if crawl_delay else "Not specified"` — both `None` and
a zero delay are falsy. -/
def delayField : Option Nat → String
  | none => "Not specified"
  | some d => if d = 0 then "Not specified" else toString d ++ " sec"

/-! ## The sitemap previewer -/

/-- Outcome of one outbound HTTP GET: either an exception (network failure,
timeout, ...) or a response with a status code and a body. -/
inductive FetchOutcome where
  | exn (msg : String)
  | resp (status : Nat) (body : String)
deriving DecidableEq, Repr

/-- The sitemap preview (source lines 143-152): `"N/A"` unless there are
sitemap matches; fetch the first match; only a 200 response updates the
preview (a non-200 response leaves `"N/A"`); an exception anywhere in the
inner `try` yields `"Failed to preview"`. -/
def previewOf (ms : List String) (fetch : FetchOutcome) : String :=
  match ms with
  | [] => "N/A"
  | _ :: _ =>
    match fetch with
    | .exn _ => "Failed to preview"
    | .resp status body =>
      if status = 200 then
        let urls := locFindall body
        if urls.isEmpty then "No URLs Found"
        else String.intercalate "\n" (urls.take 5)
      else "N/A"

/-! ## `check_site` -/

/-- The CPython helpers that the pipeline treats as parameters:
`unquoteF`/`quoteF` as in the robots-parser model, and `normPath`, the
request-URL-to-path normalisation done at the top of `can_fetch`. -/
structure PyFns where
  unquoteF : String → String
  quoteF : String → String
  normPath : String → String

/-- Identity instantiation of the abstract CPython helpers; on percent-free
ASCII inputs `unquote` and `quote` are the identity. -/
def idFns : PyFns := ⟨id, id, id⟩

/-- The signals `check_site` derives from a 200 robots response
(source lines 67-93). -/
structure Signals where
  crawlAllowed : Bool
  cDelay : Option Nat
  smMatches : List String
  smInfo : Option String
  allowedPaths : List String
  disallowedPaths : List String
  rssFound : Bool
  jsHeavy : Bool
  apiUrl : Option String

/-- Compute the signals from the robots body, the request URL and the user
agent. -/
def signalsOf (fns : PyFns) (url agent body : String) : Signals :=
  let rp := rfpParse fns.unquoteF fns.quoteF (pySplitlines body)
  { crawlAllowed := canFetch rp agent (fns.normPath url)
    cDelay := crawlDelay rp agent
    smMatches := findallSitemap body
    smInfo := if (findallSitemap body).isEmpty then none
              else some (String.intercalate ", " (findallSitemap body))
    allowedPaths := findallAllow body
    disallowedPaths := findallDisallow body
    rssFound := rssOf body
    jsHeavy := jsHeavyOf body
    apiUrl := getKnownApi (pyNetloc (pyStrip url)) }

/-- The per-site result record (the dict returned by `check_site`), with the
display-label keys renamed to Lean field names in order. -/
structure SiteRecord where
  website : String
  crawlingAllowed : String
  sitemapFound : String
  knownApi : String
  bestAccessMethod : String
  allMethods : String
  crawlDelayField : String
  jsHeavySite : String
  rssFeedAvailable : String
  allowedPathsField : String
  disallowedPathsField : String
  advancedSuggestion : String
  sitemapPreview : String
  crawlabilityScore : Nat
  suggestedUse : String
deriving DecidableEq, Repr

/-- The degraded record shared by the non-200 branch (source lines 49-65) and
the exception branch (source lines 172-189); only the `Crawling Allowed`
annotation differs between the two. -/
def degradedRecord (url ca : String) : SiteRecord :=
  { website := url
    crawlingAllowed := ca
    sitemapFound := "Unknown"
    knownApi := "Unknown"
    bestAccessMethod := "❌ No Access"
    allMethods := "Unknown"
    crawlDelayField := "Unknown"
    jsHeavySite := "Unknown"
    rssFeedAvailable := "Unknown"
    allowedPathsField := "Unknown"
    disallowedPathsField := "Unknown"
    advancedSuggestion := "Use headless browser like Playwright or Selenium"
    sitemapPreview := "N/A"
    crawlabilityScore := 0
    suggestedUse := "🔴 Not Recommended" }

/-- Assemble the success record (source lines 154-170) from the signals and
the computed preview. -/
def assembleRecord (url : String) (s : Signals) (preview : String) : SiteRecord :=
  let smT := truthyO s.smInfo
  let apiT := truthyO s.apiUrl
  { website := url
    crawlingAllowed := if s.crawlAllowed then "✅ Yes" else "❌ No"
    sitemapFound :=
      match s.smInfo with
      | some t => if t = "" then "No sitemap" else t
      | none => "No sitemap"
    knownApi :=
      match s.apiUrl with
      | some a => if a = "" then "None" else a
      | none => "None"
    bestAccessMethod := bestMethodOf s.crawlAllowed smT
    allMethods :=
      let m := methodsOf s.crawlAllowed smT apiT s.rssFound
      if m.isEmpty then "None" else String.intercalate ", " m
    crawlDelayField := delayField s.cDelay
    jsHeavySite := if s.jsHeavy then "🧠 Likely JS-Rendered" else "✅ Mostly HTML"
    rssFeedAvailable := if s.rssFound then "✅ Yes" else "❌ No"
    allowedPathsField :=
      if s.allowedPaths.isEmpty then "None specified"
      else String.intercalate ", " s.allowedPaths
    disallowedPathsField :=
      if s.disallowedPaths.isEmpty then "None specified"
      else String.intercalate ", " s.disallowedPaths
    advancedSuggestion := suggestionOf s.crawlAllowed s.jsHeavy
    sitemapPreview := preview
    crawlabilityScore := scoreOf s.crawlAllowed smT s.rssFound apiT s.jsHeavy
    suggestedUse := categoryOf url s.apiUrl s.smInfo }

/-- `check_site(url, user_agent, timeout)` (source lines 40-189) with the two
outbound fetches supplied as explicit outcomes: `robots` is the GET of
`{base}/robots.txt`, `smFetch` the GET of the first sitemap URL (consulted
only when sitemap matches exist).  An exception reaching the outer `try`
(URL parsing, the robots GET, response decoding) is the `.exn` outcome. -/
def checkSite (fns : PyFns) (robots smFetch : FetchOutcome) (url agent : String) :
    SiteRecord :=
  match robots with
  | .exn msg => degradedRecord url ("❌ No (Error: " ++ msg ++ ")")
  | .resp status body =>
    if status ≠ 200 then
      degradedRecord url ("❌ No (HTTP " ++ toString status ++ ")")
    else
      let s := signalsOf fns url agent body
      assembleRecord url s (previewOf s.smMatches smFetch)

/-- A directive line as classified by the robots parser: comment-stripped,
whitespace-stripped, split at the first colon, key lowercased and compared to
`"disallow"`. -/
def isDisallowLine (l : String) : Bool :=
  match splitColon (pyStrip (String.mk (l.data.takeWhile (· ≠ '#')))) with
  | some (k, _) => pyLower (pyStrip k) = "disallow"
  | none => false

/-- Decidable cleanliness condition on one line for the directive scanners:
either the directive literal does not match at the start of the line, or the
rest of the line still holds a non-whitespace character after the colon. -/
def cleanDirLine (l₀ : Char) (lit : List Char) (ci : Bool) (line : List Char) :
    Bool :=
  match litMatch ci (l₀ :: lit) line with
  | none => true
  | some r => !(r.dropWhile isWsChar).isEmpty

/-! ## Helper lemmas -/

theorem takeWhileAll {α : Type} {p : α → Bool} {xs : List α}
    (h : ∀ a ∈ xs, p a = true) : xs.takeWhile p = xs := by
  induction xs with
  | nil => rfl
  | cons x xs ih =>
    rw [List.takeWhile_cons_of_pos (h x (List.mem_cons_self _ _))]
    rw [ih (fun a ha => h a (List.mem_cons_of_mem _ ha))]

theorem dropWhileAll {α : Type} {p : α → Bool} {xs : List α}
    (h : ∀ a ∈ xs, p a = true) : xs.dropWhile p = [] := by
  induction xs with
  | nil => rfl
  | cons x xs ih =>
    rw [List.dropWhile_cons_of_pos (h x (List.mem_cons_self _ _))]
    exact ih (fun a ha => h a (List.mem_cons_of_mem _ ha))

theorem takeWhileAppendAll {α : Type} {p : α → Bool} {y : α} {xs ys : List α}
    (hy : p y = false) (h : ∀ a ∈ xs, p a = true) :
    (xs ++ y :: ys).takeWhile p = xs := by
  induction xs with
  | nil => simp [List.takeWhile_cons, hy]
  | cons x xs ih =>
    rw [List.cons_append, List.takeWhile_cons_of_pos (h x (List.mem_cons_self _ _))]
    rw [ih (fun a ha => h a (List.mem_cons_of_mem _ ha))]

theorem dropWhileAppendAll {α : Type} {p : α → Bool} {y : α} {xs ys : List α}
    (hy : p y = false) (h : ∀ a ∈ xs, p a = true) :
    (xs ++ y :: ys).dropWhile p = y :: ys := by
  induction xs with
  | nil => simp [List.dropWhile_cons, hy]
  | cons x xs ih =>
    rw [List.cons_append, List.dropWhile_cons_of_pos (h x (List.mem_cons_self _ _))]
    exact ih (fun a ha => h a (List.mem_cons_of_mem _ ha))

theorem dropWhileAppendNe {α : Type} {p : α → Bool} {xs ys : List α}
    (h : xs.dropWhile p ≠ []) :
    (xs ++ ys).dropWhile p = xs.dropWhile p ++ ys := by
  induction xs with
  | nil => exact absurd rfl h
  | cons x xs ih =>
    by_cases hx : p x = true
    · rw [List.cons_append, List.dropWhile_cons_of_pos hx,
        List.dropWhile_cons_of_pos hx]
      exact ih (by rwa [List.dropWhile_cons_of_pos hx] at h)
    · have hx' : ¬ p x := by simpa using hx
      rw [List.cons_append, List.dropWhile_cons_of_neg hx',
        List.dropWhile_cons_of_neg hx', List.cons_append]

theorem memOfMemDropWhile {α : Type} {p : α → Bool} {a : α} {xs : List α}
    (h : a ∈ xs.dropWhile p) : a ∈ xs :=
  (List.dropWhile_sublist p).mem h

theorem litMatchMem {ci : Bool} :
    ∀ {lit cs r : List Char}, litMatch ci lit cs = some r → ∀ a ∈ r, a ∈ cs := by
  intro lit
  induction lit with
  | nil => intro cs r h a ha; simp [litMatch] at h; rwa [h]
  | cons p ps ih =>
    intro cs r h a ha
    cases cs with
    | nil => simp [litMatch] at h
    | cons c cs' =>
      by_cases hc : charMatch ci c p = true
      · simp [litMatch, hc] at h
        exact List.mem_cons_of_mem _ (ih h a ha)
      · simp [litMatch, hc] at h

theorem litMatchAppendSome {ci : Bool} {ys : List Char} :
    ∀ {lit cs r : List Char}, litMatch ci lit cs = some r →
      litMatch ci lit (cs ++ ys) = some (r ++ ys) := by
  intro lit
  induction lit with
  | nil => intro cs r h; simp [litMatch] at h ⊢; rw [h]
  | cons p ps ih =>
    intro cs r h
    cases cs with
    | nil => simp [litMatch] at h
    | cons c cs' =>
      by_cases hc : charMatch ci c p = true
      · simp [litMatch, hc] at h ⊢
        exact ih h
      · simp [litMatch, hc] at h

theorem litMatchAppendNone {ci : Bool} {ys : List Char} :
    ∀ {lit cs : List Char}, (∀ c ∈ lit, c.toLower ≠ '\n') →
      litMatch ci lit cs = none → litMatch ci lit (cs ++ '\n' :: ys) = none := by
  intro lit
  induction lit with
  | nil => intro cs h hm; simp [litMatch] at hm
  | cons p ps ih =>
    intro cs h hm
    cases cs with
    | nil =>
      have hne : p.toLower ≠ '\n' := h p (List.mem_cons_self _ _)
      have hp2 : p ≠ '\n' := by
        intro hh; apply hne; rw [hh]; decide
      have hcm : charMatch ci '\n' p = false := by
        cases ci with
        | false => simpa [charMatch] using fun hh => hp2 hh.symm
        | true =>
          have : Char.toLower '\n' = '\n' := by decide
          simpa [charMatch, this] using fun hh => hne hh.symm
      simp [litMatch, hcm]
    | cons c cs' =>
      by_cases hc : charMatch ci c p = true
      · simp [litMatch, hc] at hm ⊢
        exact ih (fun q hq => h q (List.mem_cons_of_mem _ hq)) hm
      · simp [litMatch, hc]

theorem dirScanNil (l₀ : Char) (lit : List Char) (ci plus : Bool) :
    ∀ fuel, dirScan l₀ lit ci plus fuel [] = [] := by
  intro fuel
  induction fuel with
  | zero => rfl
  | succ f ih => simpa [dirScan, litMatch, dropLine] using ih

theorem notNlAll {l : List Char} (h : '\n' ∉ l) : ∀ a ∈ l, notNl a = true := by
  intro a ha
  simp only [notNl, bne_iff_ne, ne_eq]
  intro hh; subst hh; exact h ha

theorem notNlFalse : notNl '\n' = false := by decide

/-- The clean-body correspondence for the directive scanners: when the body
is a newline-join of newline-free lines, each of which either does not start
with the directive literal or carries a non-whitespace value after it, the
scan returns exactly the per-line values, in order. -/
theorem dirScanJoin (l₀ : Char) (lit : List Char) (ci plus : Bool)
    (hL : ∀ c ∈ l₀ :: lit, c.toLower ≠ '\n') :
    ∀ (lines : List (List Char)) (fuel : Nat),
      (joinNl lines).length < fuel →
      (∀ l ∈ lines, '\n' ∉ l) →
      (∀ l ∈ lines, cleanDirLine l₀ lit ci l = true) →
      dirScan l₀ lit ci plus fuel (joinNl lines) =
        lines.filterMap (lineVal l₀ lit ci) := by
  intro lines
  induction lines with
  | nil =>
    intro fuel hf h1 h2
    simp [joinNl, dirScanNil]
  | cons l ls ih =>
    intro fuel hf h1 h2
    have hnl : '\n' ∉ l := h1 l (List.mem_cons_self _ _)
    have hclean : cleanDirLine l₀ lit ci l = true := h2 l (List.mem_cons_self _ _)
    have hallnl : ∀ a ∈ l, notNl a = true := notNlAll hnl
    cases ls with
    | nil =>
      have hJ : joinNl [l] = l := rfl
      rw [hJ] at hf ⊢
      obtain ⟨f, rfl⟩ : ∃ f, fuel = f + 1 := ⟨fuel - 1, by omega⟩
      cases hm : litMatch ci (l₀ :: lit) l with
      | none =>
        have hlv : lineVal l₀ lit ci l = none := by simp [lineVal, hm]
        have hdl : dropLine l = [] := by
          unfold dropLine
          rw [dropWhileAll hallnl]
          rfl
        simp [dirScan, hm, hdl, dirScanNil, hlv]
      | some restL =>
        have hv : restL.dropWhile isWsChar ≠ [] := by
          have h := hclean
          unfold cleanDirLine at h
          rw [hm] at h
          simpa using h
        obtain ⟨c, vs, hcv⟩ : ∃ c vs, restL.dropWhile isWsChar = c :: vs := by
          cases hx : restL.dropWhile isWsChar with
          | nil => exact absurd hx hv
          | cons c vs => exact ⟨c, vs, rfl⟩
        have hnlr : '\n' ∉ restL := fun hmem => hnl (litMatchMem hm _ hmem)
        have hvne : ∀ a ∈ c :: vs, notNl a = true := by
          intro a ha
          apply notNlAll (l := c :: vs) _ a ha
          intro hmem
          exact hnlr (memOfMemDropWhile (p := isWsChar) (by rw [hcv]; exact hmem))
        have hda : dirAttempt plus restL = some (c :: vs, []) := by
          unfold dirAttempt
          rw [hcv]
          simp only []
          rw [takeWhileAll hvne, dropWhileAll hvne]
        have hlv : lineVal l₀ lit ci l = some (c :: vs) := by
          simp [lineVal, hm, hcv]
        simp [dirScan, hm, hda, dropLine, dirScanNil, hlv]
    | cons l2 ls2 =>
      have hJ : joinNl (l :: l2 :: ls2) = l ++ '\n' :: joinNl (l2 :: ls2) := rfl
      rw [hJ] at hf ⊢
      obtain ⟨f, rfl⟩ : ∃ f, fuel = f + 1 := ⟨fuel - 1, by omega⟩
      have hflt : (joinNl (l2 :: ls2)).length < f := by
        rw [List.length_append] at hf
        simp only [List.length_cons] at hf
        omega
      have hih := ih f hflt (fun a ha => h1 a (List.mem_cons_of_mem _ ha))
        (fun a ha => h2 a (List.mem_cons_of_mem _ ha))
      cases hm : litMatch ci (l₀ :: lit) l with
      | none =>
        have hmfull : litMatch ci (l₀ :: lit) (l ++ '\n' :: joinNl (l2 :: ls2)) = none :=
          litMatchAppendNone hL hm
        have hdl : dropLine (l ++ '\n' :: joinNl (l2 :: ls2)) = joinNl (l2 :: ls2) := by
          unfold dropLine
          rw [dropWhileAppendAll notNlFalse hallnl]
          rfl
        have hlv : lineVal l₀ lit ci l = none := by simp [lineVal, hm]
        simp [dirScan, hmfull, hdl, hih, hlv]
      | some restL =>
        have hmfull : litMatch ci (l₀ :: lit) (l ++ '\n' :: joinNl (l2 :: ls2)) =
            some (restL ++ '\n' :: joinNl (l2 :: ls2)) := litMatchAppendSome hm
        have hv : restL.dropWhile isWsChar ≠ [] := by
          have h := hclean
          unfold cleanDirLine at h
          rw [hm] at h
          simpa using h
        obtain ⟨c, vs, hcv⟩ : ∃ c vs, restL.dropWhile isWsChar = c :: vs := by
          cases hx : restL.dropWhile isWsChar with
          | nil => exact absurd hx hv
          | cons c vs => exact ⟨c, vs, rfl⟩
        have hnlr : '\n' ∉ restL := fun hmem => hnl (litMatchMem hm _ hmem)
        have hvne : ∀ a ∈ c :: vs, notNl a = true := by
          intro a ha
          apply notNlAll (l := c :: vs) _ a ha
          intro hmem
          exact hnlr (memOfMemDropWhile (p := isWsChar) (by rw [hcv]; exact hmem))
        have hdw : (restL ++ '\n' :: joinNl (l2 :: ls2)).dropWhile isWsChar =
            (c :: vs) ++ '\n' :: joinNl (l2 :: ls2) := by
          rw [dropWhileAppendNe hv, hcv]
        have hda : dirAttempt plus (restL ++ '\n' :: joinNl (l2 :: ls2)) =
            some (c :: vs, '\n' :: joinNl (l2 :: ls2)) := by
          unfold dirAttempt
          rw [hdw]
          simp only [List.cons_append]
          rw [show c :: (vs ++ '\n' :: joinNl (l2 :: ls2)) =
            (c :: vs) ++ '\n' :: joinNl (l2 :: ls2) from rfl]
          rw [takeWhileAppendAll notNlFalse hvne, dropWhileAppendAll notNlFalse hvne]
        have hdl : dropLine ('\n' :: joinNl (l2 :: ls2)) = joinNl (l2 :: ls2) := by
          unfold dropLine
          rw [List.dropWhile_cons_of_neg (by simp [notNl])]
          rfl
        have hlv : lineVal l₀ lit ci l = some (c :: vs) := by
          simp [lineVal, hm, hcv]
        simp [dirScan, hmfull, hda, hdl, hih, hlv]

/-- A 200 robots response takes the success path of `check_site`. -/
theorem checkSiteResp200 (fns : PyFns) (smFetch : FetchOutcome)
    (url agent body : String) :
    checkSite fns (.resp 200 body) smFetch url agent =
      assembleRecord url (signalsOf fns url agent body)
        (previewOf (signalsOf fns url agent body).smMatches smFetch) := by
  simp [checkSite]

theorem scoreOfCases : ∀ a b c d e : Bool,
    scoreOf a b c d e =
      (if a then 30 else 0) + (if b then 30 else 0) + (if c then 15 else 0) +
      (if d then 15 else 0) + (if e then 0 else 10) ∧
    scoreOf a b c d e ≤ 100 ∧
    (scoreOf a b c d e = 100 ↔
      (a = true ∧ b = true ∧ c = true ∧ d = true ∧ e = false)) := by
  decide

/-- Claim C1: for every successfully fetched robots body, the crawlability
score is 30 for crawl-allowed plus 30 for a sitemap plus 15 for RSS plus 15
for a known API plus 10 for not JS-heavy; it is an integer in [0,100], and it
is 100 exactly when all five conditions hold simultaneously. -/
theorem C1_score_formula (fns : PyFns) (smFetch : FetchOutcome)
    (url agent body : String) :
    (checkSite fns (.resp 200 body) smFetch url agent).crawlabilityScore =
      (if (signalsOf fns url agent body).crawlAllowed then 30 else 0) +
      (if truthyO (signalsOf fns url agent body).smInfo then 30 else 0) +
      (if (signalsOf fns url agent body).rssFound then 15 else 0) +
      (if truthyO (signalsOf fns url agent body).apiUrl then 15 else 0) +
      (if (signalsOf fns url agent body).jsHeavy then 0 else 10) ∧
    (checkSite fns (.resp 200 body) smFetch url agent).crawlabilityScore ≤ 100 ∧
    ((checkSite fns (.resp 200 body) smFetch url agent).crawlabilityScore = 100 ↔
      ((signalsOf fns url agent body).crawlAllowed = true ∧
       truthyO (signalsOf fns url agent body).smInfo = true ∧
       (signalsOf fns url agent body).rssFound = true ∧
       truthyO (signalsOf fns url agent body).apiUrl = true ∧
       (signalsOf fns url agent body).jsHeavy = false)) := by
  have hsc : (checkSite fns (.resp 200 body) smFetch url agent).crawlabilityScore =
      scoreOf (signalsOf fns url agent body).crawlAllowed
        (truthyO (signalsOf fns url agent body).smInfo)
        (signalsOf fns url agent body).rssFound
        (truthyO (signalsOf fns url agent body).apiUrl)
        (signalsOf fns url agent body).jsHeavy := by
    rw [checkSiteResp200]
    rfl
  rw [hsc]
  exact scoreOfCases _ _ _ _ _

/-- Claim C2: every robots-fetch failure — an exception reaching the outer
try, or a non-200 status — produces the degraded record: score 0, best
method "No Access", crawling reported as "No" with the failure annotation,
and every optional field set to its unknown sentinel; `check_site` is total,
so one bad URL never prevents results for the others. -/
theorem C2_degraded_on_failure :
    (∀ (fns : PyFns) (smFetch : FetchOutcome) (url agent msg : String),
      checkSite fns (.exn msg) smFetch url agent =
        degradedRecord url ("❌ No (Error: " ++ msg ++ ")")) ∧
    (∀ (fns : PyFns) (smFetch : FetchOutcome) (url agent : String)
       (status : Nat) (body : String), status ≠ 200 →
      checkSite fns (.resp status body) smFetch url agent =
        degradedRecord url ("❌ No (HTTP " ++ toString status ++ ")")) ∧
    (∀ url ca : String,
      (degradedRecord url ca).crawlabilityScore = 0 ∧
      (degradedRecord url ca).bestAccessMethod = "❌ No Access" ∧
      (degradedRecord url ca).crawlingAllowed = ca ∧
      (degradedRecord url ca).sitemapFound = "Unknown" ∧
      (degradedRecord url ca).knownApi = "Unknown" ∧
      (degradedRecord url ca).allMethods = "Unknown" ∧
      (degradedRecord url ca).crawlDelayField = "Unknown" ∧
      (degradedRecord url ca).jsHeavySite = "Unknown" ∧
      (degradedRecord url ca).rssFeedAvailable = "Unknown" ∧
      (degradedRecord url ca).allowedPathsField = "Unknown" ∧
      (degradedRecord url ca).disallowedPathsField = "Unknown" ∧
      (degradedRecord url ca).sitemapPreview = "N/A") := by
  refine ⟨fun fns smFetch url agent msg => rfl, fun fns smFetch url agent status body h => ?_, ?_⟩
  · simp [checkSite, h]
  · intro url ca
    exact ⟨rfl, rfl, rfl, rfl, rfl, rfl, rfl, rfl, rfl, rfl, rfl, rfl⟩

/-- Witness for C2 at a concrete non-200 status. -/
theorem C2_degraded_on_failure_witness :
    checkSite idFns (.resp 404 "") (.resp 200 "") "https://x.example" "*" =
      degradedRecord "https://x.example" "❌ No (HTTP 404)" :=
  C2_degraded_on_failure.2.1 idFns (.resp 200 "") "https://x.example" "*" 404 ""
    (by decide)

/-- Claim C3 (amended): provided every line on which the (case-insensitive)
`Sitemap:` literal matches carries a non-whitespace value after the colon,
the parsed sitemap list is exactly the per-line values — each `Sitemap: X`
line contributes `X` at the position it appeared, order and duplicates
preserved; and the best method is Sitemap whenever a sitemap is present,
regardless of crawl permission, else Normal Crawling when allowed, else No
Access. -/
theorem C3_sitemap_positions (lines : List (List Char))
    (h1 : ∀ l ∈ lines, '\n' ∉ l)
    (h2 : ∀ l ∈ lines, cleanDirLine 's' "itemap:".data true l = true) :
    sitemapScanData (joinNl lines) =
      lines.filterMap (lineVal 's' "itemap:".data true) ∧
    (∀ ca : Bool, bestMethodOf ca true = "📦 Sitemap (Recommended)") ∧
    bestMethodOf true false = "✅ Normal Crawling" ∧
    bestMethodOf false false = "❌ No Access" := by
  refine ⟨?_, by decide, rfl, rfl⟩
  exact dirScanJoin 's' "itemap:".data true true (by decide) lines
    ((joinNl lines).length + 1) (by omega) h1 h2

/-- Witness for C3 on a concrete three-line robots body. -/
theorem C3_sitemap_positions_witness :
    sitemapScanData (joinNl
      ["User-agent: *".data, "Sitemap: https://x.com/a.xml".data,
       "Sitemap: https://x.com/b.xml".data]) =
      ["https://x.com/a.xml".data, "https://x.com/b.xml".data] := by
  have h := C3_sitemap_positions
    ["User-agent: *".data, "Sitemap: https://x.com/a.xml".data,
     "Sitemap: https://x.com/b.xml".data] (by decide) (by decide)
  rw [h.1]
  decide

/-- Counterexample to C3 as stated: the body
`"Sitemap:\nSitemap: https://x.com/a.xml"` contains the line
`Sitemap: https://x.com/a.xml`, yet the parsed list is
`["Sitemap: https://x.com/a.xml"]` — the greedy `\s*` of the first (empty)
`Sitemap:` line crosses the newline and swallows the second line whole, so
`https://x.com/a.xml` appears nowhere in the parsed list. -/
theorem C3_sitemap_counterexample :
    pySplitlines "Sitemap:\nSitemap: https://x.com/a.xml" =
      ["Sitemap:", "Sitemap: https://x.com/a.xml"] ∧
    findallSitemap "Sitemap:\nSitemap: https://x.com/a.xml" =
      ["Sitemap: https://x.com/a.xml"] ∧
    "https://x.com/a.xml" ∉ findallSitemap "Sitemap:\nSitemap: https://x.com/a.xml" := by
  refine ⟨by decide, by decide, by decide⟩

/-- Claim C4: the source tests
`"window.__INITIAL_STATE__" in content.lower()` — an upper-case needle
against a lowercased haystack — so a body consisting of exactly that marker
is not flagged JS-heavy, although the spec's case-insensitive reading (and
the evident intent of lowercasing the body) flags it. -/
theorem C4_jsheavy_dead_keyword :
    jsHeavyOf "window.__INITIAL_STATE__" = false ∧
    specJsHeavy "window.__INITIAL_STATE__" = true ∧
    hasSubS (pyLower "window.__INITIAL_STATE__") "window.__initial_state__" = true := by
  refine ⟨by decide, by decide, by decide⟩

/-- Claim C5 (amended): the `Allow:` / `Disallow:` scans are case-sensitive:
on clean bodies the captured lists are exactly the values of the lines that
start with the canonical spellings `Allow:` / `Disallow:`, and a line with a
different casing such as `ALLOW:` contributes nothing. -/
theorem C5_directive_case_sensitive (lines : List (List Char))
    (h1 : ∀ l ∈ lines, '\n' ∉ l)
    (h2 : ∀ l ∈ lines, cleanDirLine 'A' "llow:".data false l = true)
    (h3 : ∀ l ∈ lines, cleanDirLine 'D' "isallow:".data false l = true) :
    allowScanData (joinNl lines) =
      lines.filterMap (lineVal 'A' "llow:".data false) ∧
    disallowScanData (joinNl lines) =
      lines.filterMap (lineVal 'D' "isallow:".data false) ∧
    lineVal 'A' "llow:".data false "ALLOW: /x".data = none ∧
    lineVal 'A' "llow:".data false "Allow: /x".data = some "/x".data ∧
    lineVal 'D' "isallow:".data false "DISALLOW: /x".data = none ∧
    lineVal 'D' "isallow:".data false "Disallow: /x".data = some "/x".data := by
  refine ⟨?_, ?_, by decide, by decide, by decide, by decide⟩
  · exact dirScanJoin 'A' "llow:".data false false (by decide) lines
      ((joinNl lines).length + 1) (by omega) h1 h2
  · exact dirScanJoin 'D' "isallow:".data false false (by decide) lines
      ((joinNl lines).length + 1) (by omega) h1 h3

/-- Witness for C5 on a concrete robots body mixing casings. -/
theorem C5_directive_case_sensitive_witness :
    allowScanData (joinNl
      ["Allow: /a".data, "ALLOW: /b".data, "Disallow: /c".data]) = ["/a".data] := by
  have h := C5_directive_case_sensitive
    ["Allow: /a".data, "ALLOW: /b".data, "Disallow: /c".data]
    (by decide) (by decide) (by decide)
  rw [h.1]
  decide

/-- Counterexample to C5 as stated: an `ALLOW:` line (upper-cased directive
name) is not captured, while the canonical `Allow:` spelling is; likewise for
`Disallow:`. -/
theorem C5_directive_case_counterexample :
    findallAllow "ALLOW: /private" = [] ∧
    findallAllow "Allow: /private" = ["/private"] ∧
    findallDisallow "DISALLOW: /p" = [] ∧
    findallDisallow "Disallow: /p" = ["/p"] := by
  refine ⟨by decide, by decide, by decide, by decide⟩

/-- Claim C6 (amended): the previewer returns the "N/A" marker when the
sitemap list is empty AND ALSO when the fetch of the first sitemap URL
returns a non-200 status (the inner try only replaces the preview on a 200
response); "Failed to preview" appears only when the fetch raises; a 200
body with no `<loc>` tags gives "No URLs Found"; otherwise the preview is
the first at most five `<loc>` contents in document order, joined by
newlines. -/
theorem C6_preview_cases (u : String) (rest : List String)
    (msg body : String) (status : Nat) (fetch : FetchOutcome) :
    previewOf [] fetch = "N/A" ∧
    previewOf (u :: rest) (.exn msg) = "Failed to preview" ∧
    (status ≠ 200 → previewOf (u :: rest) (.resp status body) = "N/A") ∧
    (locFindall body = [] → previewOf (u :: rest) (.resp 200 body) = "No URLs Found") ∧
    (locFindall body ≠ [] → previewOf (u :: rest) (.resp 200 body) =
      String.intercalate "\n" ((locFindall body).take 5)) := by
  refine ⟨rfl, rfl, fun h => by simp [previewOf, h], fun h => by simp [previewOf, h],
    fun h => by simp [previewOf, h]⟩

/-- Witness for C6 at concrete statuses and bodies. -/
theorem C6_preview_cases_witness :
    previewOf ["https://x.example/sm.xml"] (.resp 500 "<loc>u</loc>") = "N/A" ∧
    previewOf ["https://x.example/sm.xml"] (.resp 200 "<a/>") = "No URLs Found" ∧
    previewOf ["https://x.example/sm.xml"] (.resp 200 "<loc>a</loc><loc>b</loc>") = "a\nb" :=
  ⟨(C6_preview_cases "https://x.example/sm.xml" [] "" "<loc>u</loc>" 500
      (.resp 500 "<loc>u</loc>")).2.2.1 (by decide),
   (C6_preview_cases "https://x.example/sm.xml" [] "" "<a/>" 200
      (.resp 200 "<a/>")).2.2.2.1 (by decide),
   by
     have h := (C6_preview_cases "https://x.example/sm.xml" [] ""
       "<loc>a</loc><loc>b</loc>" 200 (.resp 200 "<loc>a</loc><loc>b</loc>")).2.2.2.2
       (by decide)
     rw [h]
     decide⟩

/-- Counterexample to C6 as stated: with a nonempty sitemap list, a fetch
that returns HTTP 404 yields the same `"N/A"` value used as the
"not applicable" marker — not a distinct "fetch failed" marker, which in the
code appears only when the fetch raises. -/
theorem C6_preview_counterexample :
    previewOf ["https://x.com/sm.xml"] (.resp 404 "<loc>u</loc>") = "N/A" ∧
    previewOf [] (.resp 404 "<loc>u</loc>") = "N/A" ∧
    ("N/A" : String) ≠ "Failed to preview" := by
  refine ⟨by decide, rfl, by decide⟩

/-- Claim C7: for every robots body with no `Disallow:` directive line and no
user-agent group matching the requested agent (in particular no `*` group,
which would match every agent), `can_fetch` answers true: no matching rule
defaults to permitted. -/
theorem C7_default_allow (unquoteF quoteF : String → String)
    (lines : List String) (agent path : String)
    (_hnodis : ∀ l ∈ lines, isDisallowLine l = false)
    (h2 : (rfpParse unquoteF quoteF lines).defaultEntry = none)
    (h3 : ∀ e ∈ (rfpParse unquoteF quoteF lines).entries, appliesTo agent e = false) :
    canFetch (rfpParse unquoteF quoteF lines) agent path = true := by
  unfold canFetch
  cases hfind : (rfpParse unquoteF quoteF lines).entries.find? (appliesTo agent) with
  | some e =>
    have he := List.mem_of_find?_eq_some hfind
    have happ := List.find?_some hfind
    rw [h3 e he] at happ
    exact absurd happ (by simp)
  | none => simp [h2]

/-- Witness for C7: a body whose only group is for another agent. -/
theorem C7_default_allow_witness :
    canFetch (rfpParse id id ["User-agent: googlebot", "Allow: /a"]) "mybot" "/x" = true :=
  C7_default_allow id id ["User-agent: googlebot", "Allow: /a"] "mybot" "/x"
    (by decide) (by decide) (by decide)

/-- Claim C8 (amended): `suggestedUseCategory` is the first matching rule of
the fixed case-sensitive priority list (recipes/food, news/times/aljazeera,
jobs/career/remote, books/openlibrary, travel/trip/expedia, known API,
sitemap, experimental fallback); consequently a URL containing "news" — and
not containing the higher-priority keywords "recipes" or "food" — is
classified news-aggregator regardless of known API and sitemap. -/
theorem C8_category_priority :
    (∀ (url : String) (apiUrl smInfo : Option String),
      categoryOf url apiUrl smInfo = specSuggestedUse url apiUrl smInfo) ∧
    (∀ url : String, hasSubS url "news" = true → hasSubS url "recipes" = false →
      hasSubS url "food" = false → ∀ (apiUrl smInfo : Option String),
      categoryOf url apiUrl smInfo = "📰 News Aggregator") := by
  constructor
  · intro url apiUrl smInfo
    rfl
  · intro url hn hr hf apiUrl smInfo
    simp [categoryOf, hn, hr, hf]

/-- Witness for C8 at a concrete news URL with no API and no sitemap. -/
theorem C8_category_priority_witness :
    categoryOf "https://daily-news.example" none none = "📰 News Aggregator" :=
  C8_category_priority.2 "https://daily-news.example" (by decide) (by decide)
    (by decide) none none

/-- Counterexample to C8's final clause as stated: a URL containing "news"
with no known API and no sitemap is NOT always news-aggregator — the
higher-priority "food" rule fires first. -/
theorem C8_category_counterexample :
    hasSubS "https://foodnews.example" "news" = true ∧
    categoryOf "https://foodnews.example" none none = "🍲 Recipe Extraction" ∧
    categoryOf "https://foodnews.example" none none ≠ "📰 News Aggregator" := by
  refine ⟨by decide, by decide, by decide⟩

theorem apiMemMethods : ∀ a b c : Bool, "API" ∈ methodsOf a b true c := by decide

/-- Claim C9: the known-API lookup is a fixed three-entry domain table —
exactly paperswithcode.com, github.com and openlibrary.org map to their API
root URLs, every other domain to none — and whenever the request URL's
domain is github.com, the record's Known API field is
`https://api.github.com/` and `API` is among the available methods,
independent of the robots content. -/
theorem C9_known_api :
    getKnownApi "paperswithcode.com" = some "https://paperswithcode.com/api/v1/" ∧
    getKnownApi "github.com" = some "https://api.github.com/" ∧
    getKnownApi "openlibrary.org" = some "https://openlibrary.org/developers/api" ∧
    (∀ d : String, d ≠ "paperswithcode.com" → d ≠ "github.com" →
      d ≠ "openlibrary.org" → getKnownApi d = none) ∧
    (∀ (fns : PyFns) (smFetch : FetchOutcome) (url agent body : String),
      pyNetloc (pyStrip url) = "github.com" →
      (checkSite fns (.resp 200 body) smFetch url agent).knownApi =
        "https://api.github.com/" ∧
      "API" ∈ methodsOf (signalsOf fns url agent body).crawlAllowed
        (truthyO (signalsOf fns url agent body).smInfo)
        (truthyO (signalsOf fns url agent body).apiUrl)
        (signalsOf fns url agent body).rssFound) := by
  refine ⟨rfl, rfl, rfl, ?_, ?_⟩
  · intro d h1 h2 h3
    simp [getKnownApi, h1, h2, h3]
  · intro fns smFetch url agent body h
    have hapi : (signalsOf fns url agent body).apiUrl = some "https://api.github.com/" := by
      show getKnownApi (pyNetloc (pyStrip url)) = some "https://api.github.com/"
      rw [h]
      rfl
    constructor
    · rw [checkSiteResp200]
      show (match (signalsOf fns url agent body).apiUrl with
        | some a => if a = "" then "None" else a
        | none => "None") = "https://api.github.com/"
      rw [hapi]
      decide
    · rw [hapi]
      exact apiMemMethods _ _ _

/-- Witness for C9 at a concrete github URL and at a concrete unknown
domain. -/
theorem C9_known_api_witness :
    (checkSite idFns (.resp 200 "User-agent: *") (.resp 200 "")
      "https://github.com/search" "*").knownApi = "https://api.github.com/" ∧
    getKnownApi "example.org" = none :=
  ⟨((C9_known_api.2.2.2.2 idFns (.resp 200 "") "https://github.com/search" "*"
      "User-agent: *") (by decide)).1,
   C9_known_api.2.2.2.1 "example.org" (by decide) (by decide) (by decide)⟩

/-- Claim C10: a declared `Crawl-delay: 0` in the matching group resolves to
a zero delay, which the display formats exactly like an absent delay — both
render as "Not specified", so a declared zero crawl delay is
indistinguishable from an absent one in the output record. -/
theorem C10_crawl_delay_zero (fns : PyFns) (smFetch : FetchOutcome)
    (url agent body bodyNone : String)
    (h0 : crawlDelay (rfpParse fns.unquoteF fns.quoteF (pySplitlines body)) agent =
      some 0)
    (hn : crawlDelay (rfpParse fns.unquoteF fns.quoteF (pySplitlines bodyNone)) agent =
      none) :
    (checkSite fns (.resp 200 body) smFetch url agent).crawlDelayField =
      "Not specified" ∧
    (checkSite fns (.resp 200 bodyNone) smFetch url agent).crawlDelayField =
      "Not specified" := by
  constructor
  · rw [checkSiteResp200]
    show delayField (signalsOf fns url agent body).cDelay = "Not specified"
    have : (signalsOf fns url agent body).cDelay =
        crawlDelay (rfpParse fns.unquoteF fns.quoteF (pySplitlines body)) agent := rfl
    rw [this, h0]
    rfl
  · rw [checkSiteResp200]
    show delayField (signalsOf fns url agent bodyNone).cDelay = "Not specified"
    have : (signalsOf fns url agent bodyNone).cDelay =
        crawlDelay (rfpParse fns.unquoteF fns.quoteF (pySplitlines bodyNone)) agent := rfl
    rw [this, hn]
    rfl

/-- Witness for C10: a wildcard group declaring `Crawl-delay: 0` versus an
empty body. -/
theorem C10_crawl_delay_zero_witness :
    (checkSite idFns (.resp 200 "User-agent: *\nCrawl-delay: 0") (.resp 200 "")
      "https://x.example" "*").crawlDelayField = "Not specified" ∧
    (checkSite idFns (.resp 200 "") (.resp 200 "")
      "https://x.example" "*").crawlDelayField = "Not specified" :=
  C10_crawl_delay_zero idFns (.resp 200 "") "https://x.example" "*"
    "User-agent: *\nCrawl-delay: 0" "" (by decide) (by decide)
